import Mathlib

/-!
Verification development for the hints_service repository.

The Python source (src/hints_service) is shallowly embedded below:
pure functions become Lean functions, raised exceptions become `Except.error`
values carrying a `PyErr`, and the two external collaborators are
parameters:
 * the scikit-learn cosine-similarity computation is a `SimOracle`
   (the service only inspects similarity values through `> 0.7`
   comparisons); the TF-IDF *fit* with its `min_df = 0.1` / `max_df = 0.9`
   document-frequency pruning is modelled exactly, because its
   empty-vocabulary failure mode is observable;
 * the YandexGPT rewriting call (`generate_hint_by_note`) is a `Rewriter`
   describing the network outcome of one invocation.

Timestamps use the service's single fixed format "%Y-%m-%d %H:%M", so a
parsed value carries year/month/day/hour/minute only.
-/

deriving instance DecidableEq for Except

set_option maxRecDepth 40000

namespace HintsService

/-- Errors raised by the embedded Python code. -/
inductive PyErr where
  | valueError (msg : String)
  | zeroDivision
  | indexError
  | httpError (status : Nat) (detail : String)
deriving DecidableEq, Repr

/-- `CategoryType(str, Enum)` from schemas.py. -/
inductive CategoryType where
  | TIME
  | LOCATION
  | EVENT
  | SHOPPING
  | CALL
  | MEETING
  | DEADLINE
  | HEALTH
  | ROUTINE
  | OTHER
deriving DecidableEq, Repr

/-- Iteration order of `for category in CategoryType` (declaration order). -/
def CategoryType.all : List CategoryType :=
  [.TIME, .LOCATION, .EVENT, .SHOPPING, .CALL, .MEETING, .DEADLINE, .HEALTH, .ROUTINE, .OTHER]

/-- `TriggerType(str, Enum)` from schemas.py. -/
inductive TriggerType where
  | TIME
  | LOCATION
deriving DecidableEq, Repr

/-- `TriggerDto` from schemas.py. -/
structure TriggerDto where
  triggerType : TriggerType
  triggerValue : String
deriving DecidableEq, Repr

/-- `NoteDto` from schemas.py. -/
structure NoteDto where
  text : String
  createdAt : String
  updatedAt : Option String
  categoryType : CategoryType
  triggers : List TriggerDto
deriving DecidableEq, Repr

/-- `TextBasedHintRequest` from schemas.py. -/
structure TextBasedHintRequest where
  context : List NoteDto
  current_time : String
deriving DecidableEq, Repr

/-- `TextBasedHintResponse` from schemas.py. -/
structure TextBasedHintResponse where
  note : NoteDto
  hintText : String
deriving DecidableEq, Repr

/-- A `datetime.time` value as produced by this service: the format
"%Y-%m-%d %H:%M" never yields seconds, so only hour and minute exist. -/
structure Time where
  hour : Nat
  minute : Nat
deriving DecidableEq, Repr

/-- Seconds since midnight of a time-of-day (`h*3600 + m*60`, seconds are 0). -/
def Time.toSeconds (t : Time) : Nat :=
  t.hour * 3600 + t.minute * 60

/-- A `datetime.datetime` parsed with "%Y-%m-%d %H:%M" (no seconds). -/
structure DateTime where
  year : Nat
  month : Nat
  day : Nat
  hour : Nat
  minute : Nat
deriving DecidableEq, Repr

/-- `.time()` of a datetime. -/
def DateTime.time (d : DateTime) : Time :=
  ⟨d.hour, d.minute⟩

/-- Seconds since midnight of a datetime's time-of-day. -/
def DateTime.timeOfDaySeconds (d : DateTime) : Nat :=
  d.hour * 3600 + d.minute * 60

/-- Gregorian leap-year test (as in Python's `calendar`/`datetime`). -/
def isLeapYear (y : Nat) : Bool :=
  y % 4 == 0 && (y % 100 != 0 || y % 400 == 0)

/-- Number of days of a month, used by `datetime` to validate a `day` field. -/
def daysInMonth (y : Nat) (m : Nat) : Nat :=
  if m = 2 then (if isLeapYear y then 29 else 28)
  else if m = 4 ∨ m = 6 ∨ m = 9 ∨ m = 11 then 30
  else 31

/-- Lexicographic comparison of datetimes (`datetime.__le__`), encoded through
a mixed-radix key; the factors 13, 32, 24, 60 strictly bound the month, day,
hour and minute fields, so key order is exactly lexicographic order. -/
def DateTime.key (d : DateTime) : Nat :=
  (((d.year * 13 + d.month) * 32 + d.day) * 24 + d.hour) * 60 + d.minute

/-- `a <= b` on datetimes. -/
def DateTime.leB (a b : DateTime) : Bool :=
  a.key ≤ b.key

/-- `d.replace(hour=h, minute=m)`.  The service only calls it with an
hour/minute coming from `_average_time`, which always lies in range, so the
embedded version is total. -/
def DateTime.replaceTime (d : DateTime) (h m : Nat) : DateTime :=
  { d with hour := h, minute := m }

/-- `d.replace(day=day)`: Python validates the new day against the month and
raises `ValueError("day is out of range for month")` otherwise. -/
def DateTime.replaceDay (d : DateTime) (day : Nat) : Except PyErr DateTime :=
  if 1 ≤ day ∧ day ≤ daysInMonth d.year d.month then .ok { d with day := day }
  else .error (.valueError "day is out of range for month")

/-- Value of a decimal digit character, `none` otherwise. -/
def digit? (c : Char) : Option Nat :=
  if c.isDigit then some (c.toNat - 48) else none

/-- Read two decimal digits from the front of a character list. -/
def twoDigits : List Char → Option (Nat × List Char)
  | c1 :: c2 :: rest =>
    match digit? c1, digit? c2 with
    | some a, some b => some (a * 10 + b, rest)
    | _, _ => none
  | _ => none

/-- Consume one expected literal character. -/
def expectChar (c : Char) : List Char → Option (List Char)
  | x :: rest => if x = c then some rest else none
  | [] => none

/-- `datetime.strptime(s, "%Y-%m-%d %H:%M")`: the strictly formatted reading
"YYYY-MM-DD HH:MM" with field validation (month, day-of-month, hour, minute),
`none` when the string does not match the format. -/
def strptime (s : String) : Option DateTime := do
  let (y12, r1) ← twoDigits s.toList
  let (y34, r2) ← twoDigits r1
  let r3 ← expectChar '-' r2
  let (month, r4) ← twoDigits r3
  let r5 ← expectChar '-' r4
  let (day, r6) ← twoDigits r5
  let r7 ← expectChar ' ' r6
  let (hour, r8) ← twoDigits r7
  let r9 ← expectChar ':' r8
  let (minute, r10) ← twoDigits r9
  let year := y12 * 100 + y34
  if r10 = [] ∧ 1 ≤ month ∧ month ≤ 12 ∧ 1 ≤ day ∧ day ≤ daysInMonth year month
      ∧ hour ≤ 23 ∧ minute ≤ 59 then
    some ⟨year, month, day, hour, minute⟩
  else none

/-- `strptime` as the raising Python call: unparseable input is a
`ValueError`. -/
def strptimeE (s : String) : Except PyErr DateTime :=
  match strptime s with
  | some d => .ok d
  | none => .error (.valueError ("time data " ++ s ++ " does not match format %Y-%m-%d %H:%M"))

/-- Two-digit zero-padded decimal rendering. -/
def pad2 (n : Nat) : String :=
  if n < 10 then "0" ++ toString n else toString n

/-- Four-digit zero-padded decimal rendering. -/
def pad4 (n : Nat) : String :=
  if n < 10 then "000" ++ toString n
  else if n < 100 then "00" ++ toString n
  else if n < 1000 then "0" ++ toString n
  else toString n

/-- `d.strftime("%Y-%m-%d %H:%M")`. -/
def strftime (d : DateTime) : String :=
  pad4 d.year ++ "-" ++ pad2 d.month ++ "-" ++ pad2 d.day ++ " "
    ++ pad2 d.hour ++ ":" ++ pad2 d.minute

/-- A word character of the token pattern `\w+` (ASCII reading). -/
def is_word_char (c : Char) : Bool :=
  c.isAlphanum || c == '_'

/-- Accumulator-based splitting of a character list into maximal `\w+` runs,
lowercasing as scikit-learn's default `lowercase=True` does. -/
def tokenize_aux : List Char → List Char → List String
  | [], acc => if acc.isEmpty then [] else [String.mk acc.reverse]
  | c :: cs, acc =>
    if is_word_char c then tokenize_aux cs (c.toLower :: acc)
    else if acc.isEmpty then tokenize_aux cs []
    else String.mk acc.reverse :: tokenize_aux cs []

/-- Tokenization used by the `TfidfVectorizer(analyzer='word',
token_pattern=r'\w+')`: lowercase, then maximal word-character runs. -/
def tokenize (s : String) : List String :=
  tokenize_aux s.toList []

/-- `self.vectorizer.fit(all_texts)` of the `TfidfVectorizer` constructed with
`min_df=0.1, max_df=0.9`.  Building the vocabulary collects all tokens; a
fully empty vocabulary raises, and document-frequency pruning keeps a term
only when `0.1 * n ≤ df ≤ 0.9 * n` (stated over rationals as
`n ≤ 10 * df ∧ 10 * df ≤ 9 * n`), raising when nothing remains.  The fitted
information the rest of the pipeline observes is abstracted by the corpus the
model was fitted on. -/
def fit_vectorizer (all_texts : List String) : Except PyErr (List String) :=
  let docs := all_texts.map tokenize
  let vocabulary := docs.flatten.eraseDups
  if vocabulary.isEmpty then
    .error (.valueError "empty vocabulary; perhaps the documents only contain stop words")
  else
    let n := all_texts.length
    let kept := vocabulary.filter (fun t =>
      let df := (docs.filter (fun d => d.contains t)).length
      decide (n ≤ 10 * df) && decide (10 * df ≤ 9 * n))
    if kept.isEmpty then
      .error (.valueError "After pruning, no terms remain. Try a lower min_df or a higher max_df.")
    else .ok kept

/-- The cosine-similarity collaborator: given the corpus the vectorizer was
fitted on and the texts of one category, yields the entry
`cosine_similarity(tfidf_matrix)[i][j]`.  The service inspects these values
only through comparisons with the 0.7 threshold. -/
def SimOracle : Type :=
  List String → List String → Nat → Nat → ℚ

/-- The greedy clustering pass of `_group_similar_notes` over row indices:
`for i in range(n): if i not in used_indices:` collect
`np.where(sim_matrix[i] > 0.7)` as one group and mark those indices used. -/
def greedy_groups_aux (simf : Nat → Nat → ℚ) (n : Nat) :
    List Nat → List Nat → List (List Nat)
  | [], _used => []
  | i :: rest, used =>
    if i ∈ used then greedy_groups_aux simf n rest used
    else
      let similar := (List.range n).filter (fun j => decide ((7 : ℚ) / 10 < simf i j))
      similar :: greedy_groups_aux simf n rest (used ++ similar)

/-- Groups of one category's notes (`group = [category_notes[j] for j in
similar_indices]`). -/
def group_category_notes (simf : Nat → Nat → ℚ) (category_notes : List NoteDto) :
    List (List NoteDto) :=
  (greedy_groups_aux simf category_notes.length (List.range category_notes.length) []).map
    (fun idxs => idxs.filterMap (fun j => category_notes.get? j))

/-- The dictionary `_group_similar_notes` builds: category keys in
`CategoryType` declaration order (the `for category in CategoryType` loop),
categories with fewer than 2 notes skipped. -/
abbrev Grouped : Type :=
  List (CategoryType × List (List NoteDto))

/-- The per-category portion of `_group_similar_notes`, given an already
fitted model (represented by its fit corpus). -/
def groups_for (sim : SimOracle) (corpus : List String) (notes : List NoteDto) : Grouped :=
  CategoryType.all.filterMap (fun category =>
    let category_notes := notes.filter (fun n => decide (n.categoryType = category))
    if category_notes.length < 2 then none
    else some (category,
      group_category_notes (sim corpus (category_notes.map (fun n => n.text))) category_notes))

/-- `_group_similar_notes`: fits the vectorizer on all note texts when the
`_fit_vectorizer` flag is unset (the state is the corpus of the one-time fit,
`none` while unfitted); a fit failure propagates as the raised exception and
leaves the flag unset. -/
def group_similar_notes (sim : SimOracle) (state : Option (List String))
    (notes : List NoteDto) : Except PyErr Grouped × Option (List String) :=
  match state with
  | some corpus => (.ok (groups_for sim corpus notes), some corpus)
  | none =>
    let all_texts := notes.map (fun n => n.text)
    match fit_vectorizer all_texts with
    | .error e => (.error e, none)
    | .ok _vocab => (.ok (groups_for sim all_texts notes), some all_texts)

/-- `_average_time`: total of `t.hour*3600 + t.minute*60` integer-divided by
the list length (a `ZeroDivisionError` on an empty list), re-packed as
hour/minute. -/
def average_time (times : List Time) : Except PyErr Time :=
  let total_seconds := (times.map Time.toSeconds).sum
  if times.length = 0 then .error .zeroDivision
  else
    let avg_seconds := total_seconds / times.length
    .ok ⟨avg_seconds / 3600, avg_seconds % 3600 / 60⟩

/-- Parsing of the `TriggerType.TIME` triggers of one note, in order, as in
the inner loop of `_analyze_group_time_pattern`; a non-time trigger is passed
over, a time trigger with an unparseable value raises. -/
def parse_time_triggers : List TriggerDto → Except PyErr (List DateTime)
  | [] => .ok []
  | t :: ts =>
    if t.triggerType = TriggerType.TIME then
      match strptimeE t.triggerValue with
      | .error e => .error e
      | .ok d =>
        match parse_time_triggers ts with
        | .error e => .error e
        | .ok ds => .ok (d :: ds)
    else parse_time_triggers ts

/-- The collection loop of `_analyze_group_time_pattern`: per note, its time
triggers are parsed and then its `createdAt`; the first parse failure raises. -/
def collect_times : List NoteDto → Except PyErr (List DateTime × List DateTime)
  | [] => .ok ([], [])
  | n :: rest =>
    match parse_time_triggers n.triggers with
    | .error e => .error e
    | .ok tts =>
      match strptimeE n.createdAt with
      | .error e => .error e
      | .ok c =>
        match collect_times rest with
        | .error e => .error e
        | .ok (restT, restC) => .ok (tts ++ restT, c :: restC)

/-- The derived `TimeSignature` of a group. -/
structure TimePattern where
  avg_trigger : Time
  avg_creation : Time
  count : Nat
deriving DecidableEq, Repr

/-- `_analyze_group_time_pattern`: collects the group's trigger and creation
datetimes, then averages their times-of-day (`avg_trigger` first, as in the
source, so a trigger-less group raises `ZeroDivisionError` there). -/
def analyze_group_time_pattern (group : List NoteDto) : Except PyErr TimePattern :=
  match collect_times group with
  | .error e => .error e
  | .ok (trigger_times, creation_times) =>
    match average_time (trigger_times.map DateTime.time) with
    | .error e => .error e
    | .ok avg_trigger =>
      match average_time (creation_times.map DateTime.time) with
      | .error e => .error e
      | .ok avg_creation => .ok ⟨avg_trigger, avg_creation, group.length⟩

/-- `_calculate_group_score`: the Python
`(current_dt - datetime.combine(current_dt.date(), avg_creation))` subtracts
two datetimes on the same date, so its `total_seconds()` is the difference of
the two times-of-day in seconds (`avg_creation` carries no seconds). -/
def calculate_group_score (tp : TimePattern) (current_dt : DateTime) : ℚ :=
  let time_diff : ℚ :=
    ((current_dt.timeOfDaySeconds : ℚ) - (tp.avg_creation.toSeconds : ℚ)) / 3600
  let time_factor : ℚ := max 0 (1 - |time_diff| / 12)
  let count_factor : ℚ := min 1 ((tp.count : ℚ) / 5)
  time_factor * count_factor

/-- The groups of all categories in iteration order of
`for category, groups in grouped_notes.items(): for group in groups:`. -/
def allGroups (grouped : Grouped) : List (List NoteDto) :=
  (grouped.map Prod.snd).flatten

/-- The accumulating loop of `_find_best_recommendation`: groups of size < 2
are skipped, each remaining group is analyzed and scored, and a strictly
higher score replaces the current best (ties keep the earlier group). -/
def find_best_aux (current_dt : DateTime) :
    List (List NoteDto) → Option (List NoteDto) × ℚ →
    Except PyErr (Option (List NoteDto) × ℚ)
  | [], acc => .ok acc
  | g :: rest, (best_group, best_score) =>
    if g.length < 2 then find_best_aux current_dt rest (best_group, best_score)
    else
      match analyze_group_time_pattern g with
      | .error e => .error e
      | .ok tp =>
        let score := calculate_group_score tp current_dt
        if best_score < score then find_best_aux current_dt rest (some g, score)
        else find_best_aux current_dt rest (best_group, best_score)

/-- `_find_best_recommendation`: parses the current time, then runs the loop
starting from `best_group = None, best_score = 0`. -/
def find_best_recommendation (grouped : Grouped) (current_time : String) :
    Except PyErr (Option (List NoteDto)) :=
  match strptimeE current_time with
  | .error e => .error e
  | .ok current_dt =>
    match find_best_aux current_dt (allGroups grouped) (none, 0) with
    | .error e => .error e
    | .ok (best_group, _best_score) => .ok best_group

/-- Outcome of one call to the YandexGPT rewriting collaborator, as observed
by `generate_hint_by_note`: a successful response whose parsed body yields the
completion text, an HTTP status error, or any other failure (connection
errors, timeouts, malformed response bodies). -/
inductive LlmOutcome where
  | success (text : String)
  | httpStatusError (status : Nat) (body : String)
  | otherFailure (msg : String)
deriving DecidableEq, Repr

/-- The rewriting collaborator's behavior for one invocation. -/
def Rewriter : Type :=
  NoteDto → String → LlmOutcome

/-- `generate_hint_by_note`: on success returns the completion text; an
`httpx.HTTPStatusError` is re-raised as
`HTTPException(status, "YandexGPT API error: ...")` and every other exception
as `HTTPException(500, "Text processing failed: ...")`. -/
def generate_hint_by_note (rewriter : Rewriter) (note : NoteDto)
    (current_time : String) : Except PyErr String :=
  match rewriter note current_time with
  | .success t => .ok t
  | .httpStatusError status body =>
    .error (.httpError status ("YandexGPT API error: " ++ body))
  | .otherFailure m => .error (.httpError 500 ("Text processing failed: " ++ m))

/-- The part of `_build_hint_from_group` before the collaborator call:
re-analyzes the group, takes the first member's text and category
(`group[0]`, an `IndexError` on an empty list, though the preceding analysis
of an empty group already raised), places the average trigger time on the
current day, rolled to `day + 1` via `replace` when not strictly in the
future, and assembles the synthesized note. -/
def build_hint_note (group : List NoteDto) (current_time : String) :
    Except PyErr NoteDto :=
  match analyze_group_time_pattern group with
  | .error e => .error e
  | .ok time_pattern =>
    match group with
    | [] => .error .indexError
    | first :: _ =>
      let category := first.categoryType
      let reminder_text := first.text
      match strptimeE current_time with
      | .error e => .error e
      | .ok current_dt =>
        let trigger_time0 :=
          current_dt.replaceTime time_pattern.avg_trigger.hour time_pattern.avg_trigger.minute
        let rolled : Except PyErr DateTime :=
          if trigger_time0.leB current_dt then trigger_time0.replaceDay (trigger_time0.day + 1)
          else .ok trigger_time0
        match rolled with
        | .error e => .error e
        | .ok trigger_time =>
          .ok { text := reminder_text
                createdAt := current_time
                updatedAt := none
                categoryType := category
                triggers := [⟨TriggerType.TIME, strftime trigger_time⟩] }

/-- `_build_hint_from_group`: the synthesized note of `build_hint_note`
passed to the rewriting collaborator, whose text becomes the response's
`hintText`. -/
def build_hint_from_group (rewriter : Rewriter) (group : List NoteDto)
    (current_time : String) : Except PyErr TextBasedHintResponse :=
  match build_hint_note group current_time with
  | .error e => .error e
  | .ok hint_note =>
    match generate_hint_by_note rewriter hint_note current_time with
    | .error e => .error e
    | .ok hint_text => .ok ⟨hint_note, hint_text⟩

/-- `generate_time_hint`: the engine facade.  An empty context returns `None`
before anything else; then grouping, best-group selection and synthesis run in
sequence, any raised exception propagating unchanged.  The returned state is
the (possibly newly fitted) vectorizer state of the service singleton. -/
def generate_time_hint (sim : SimOracle) (rewriter : Rewriter)
    (state : Option (List String)) (request : TextBasedHintRequest) :
    Except PyErr (Option TextBasedHintResponse) × Option (List String) :=
  if request.context.isEmpty then (.ok none, state)
  else
    match group_similar_notes sim state request.context with
    | (.error e, s) => (.error e, s)
    | (.ok grouped, s) =>
      match find_best_recommendation grouped request.current_time with
      | .error e => (.error e, s)
      | .ok none => (.ok none, s)
      | .ok (some best_group) =>
        match build_hint_from_group rewriter best_group request.current_time with
        | .error e => (.error e, s)
        | .ok response => (.ok (some response), s)

/-- The winning cluster of one engine invocation (the facade stopped after
`_find_best_recommendation`). -/
def winning_cluster (sim : SimOracle) (state : Option (List String))
    (request : TextBasedHintRequest) :
    Except PyErr (Option (List NoteDto)) × Option (List String) :=
  if request.context.isEmpty then (.ok none, state)
  else
    match group_similar_notes sim state request.context with
    | (.error e, s) => (.error e, s)
    | (.ok grouped, s) => (find_best_recommendation grouped request.current_time, s)

/-- FastAPI's view of a raised exception at the `get_from_text` endpoint:
an `HTTPException` keeps its status and detail, any other exception becomes
status 500 with `str(e)` as detail (Python's texts for the two non-HTTP
errors the engine can raise are reproduced). -/
def errToHttp : PyErr → Nat × String
  | .httpError status detail => (status, detail)
  | .valueError msg => (500, msg)
  | .zeroDivision => (500, "integer division or modulo by zero")
  | .indexError => (500, "list index out of range")

/-- The `/entities/get_text_based_hint` endpoint `get_from_text`: a `None`
hint becomes `HTTPException(404, "No hints generated")`, raised
`HTTPException`s are re-raised, and any other exception becomes a 500. -/
def get_from_text (sim : SimOracle) (rewriter : Rewriter)
    (state : Option (List String)) (request : TextBasedHintRequest) :
    Except (Nat × String) TextBasedHintResponse × Option (List String) :=
  match generate_time_hint sim rewriter state request with
  | (.ok (some hint), s) => (.ok hint, s)
  | (.ok none, s) => (.error (404, "No hints generated"), s)
  | (.error e, s) => (.error (errToHttp e), s)

/-! ### Concrete collaborator behaviors and requests

`simIdentical` reproduces the cosine-similarity values scikit-learn computes
on every request below: the two texts appearing there, "buy milk" and
"call mom", have disjoint vocabulary support after the fit (cosine 0), while
two occurrences of the same text have identical nonzero TF-IDF vectors
(cosine 1, likewise on the diagonal). -/

/-- Cosine similarity as realized on the concrete requests of this file:
1 for identical texts, 0 otherwise. -/
def simIdentical : SimOracle := fun _corpus texts i j =>
  match texts.get? i, texts.get? j with
  | some a, some b => if a = b then 1 else 0
  | _, _ => 0

/-- A rewriting collaborator that answers successfully. -/
def rwOk : Rewriter := fun _ _ => .success "ok"

/-- A rewriting collaborator whose endpoint answers 503. -/
def rwUnavailable : Rewriter := fun _ _ => .httpStatusError 503 "unavailable"

/-- A Shopping note with a parseable 18:00 time trigger. -/
def noteMilk : NoteDto :=
  ⟨"buy milk", "2025-06-16 17:00", none, .SHOPPING, [⟨.TIME, "2025-06-16 18:00"⟩]⟩

/-- An Other-category note with no triggers. -/
def noteOther : NoteDto :=
  ⟨"call mom", "2025-06-16 09:00", none, .OTHER, []⟩

/-- Two textually identical Shopping notes with time triggers plus an
unrelated Other note. -/
def reqTwoMilk : TextBasedHintRequest :=
  ⟨[noteMilk, noteMilk, noteOther], "2025-06-16 17:10"⟩

/-- The Shopping note without any trigger. -/
def noteMilkNoTrigger : NoteDto :=
  ⟨"buy milk", "2025-06-16 17:00", none, .SHOPPING, []⟩

/-- A request whose notes all lack time triggers, with a Shopping cluster of
size 2. -/
def reqNoTriggers : TextBasedHintRequest :=
  ⟨[noteMilkNoTrigger, noteMilkNoTrigger, noteOther], "2025-06-16 12:00"⟩

/-- The Shopping note with an unparseable time-trigger value. -/
def noteMilkBadTrigger : NoteDto :=
  ⟨"buy milk", "2025-06-16 17:00", none, .SHOPPING, [⟨.TIME, "soon"⟩]⟩

/-- A request whose winning cluster contains an unparseable time trigger. -/
def reqBadTrigger : TextBasedHintRequest :=
  ⟨[noteMilk, noteMilkBadTrigger, noteOther], "2025-06-16 17:10"⟩

/-- A Shopping note created late on 2025-01-31 with a 09:00 trigger. -/
def noteMilkJan : NoteDto :=
  ⟨"buy milk", "2025-01-31 22:00", none, .SHOPPING, [⟨.TIME, "2025-01-30 09:00"⟩]⟩

/-- Filler note for the month-end request. -/
def noteOtherJan : NoteDto :=
  ⟨"call mom", "2025-01-31 08:00", none, .OTHER, []⟩

/-- A request arriving at 23:00 on the last day of January whose winning
cluster's average trigger time (09:00) already passed. -/
def reqMonthEnd : TextBasedHintRequest :=
  ⟨[noteMilkJan, noteMilkJan, noteOtherJan], "2025-01-31 23:00"⟩

/-- A request consisting of a single note. -/
def reqSingleNote : TextBasedHintRequest :=
  ⟨[⟨"hello world", "2025-06-16 10:00", none, .ROUTINE, []⟩], "2025-06-16 10:05"⟩

/-- Three notes in three distinct categories, one note each. -/
def reqDistinctCategories : TextBasedHintRequest :=
  ⟨[⟨"water plants", "2025-06-16 08:00", none, .ROUTINE, []⟩,
    ⟨"buy bread", "2025-06-16 09:00", none, .SHOPPING, [⟨.TIME, "2025-06-16 18:00"⟩]⟩,
    ⟨"call dentist", "2025-06-16 10:00", none, .CALL, []⟩], "2025-06-16 11:00"⟩

/-- A request of two textually identical notes and nothing else. -/
def reqAllIdentical : TextBasedHintRequest :=
  ⟨[noteMilk, noteMilk], "2025-06-16 17:10"⟩

/-! ### Specification-side definitions

These re-state parts of the specification in its own words; the theorems
below compare them with the embedded source. -/

/-- The averaging algorithm as the specification words it: seconds since
midnight, integer-truncated mean, conversion back to hour and minute. -/
def spec_average_time (ts : List Time) : Time :=
  let avg := (ts.map Time.toSeconds).sum / ts.length
  ⟨avg / 3600, avg % 3600 / 60⟩

/-- The score the selection loop associates with a group: the analyzed
pattern's score, or 0 for a group whose analysis raises (such a group never
reaches the scoring line). -/
def scoreOf (current_dt : DateTime) (g : List NoteDto) : ℚ :=
  match analyze_group_time_pattern g with
  | .ok tp => calculate_group_score tp current_dt
  | .error _ => 0

/-- Maximum of the scores of a list of groups, on top of a starting value. -/
def specMax (current_dt : DateTime) (l : List (List NoteDto)) (s : ℚ) : ℚ :=
  l.foldr (fun g m => max (scoreOf current_dt g) m) s

/-- The specification's description of cluster selection: among the clusters
of size ≥ 2, in encounter order, the one with the strictly highest score wins
(ties keep the earliest), and no cluster scoring above zero means no
recommendation. -/
def bestSpec (current_dt : DateTime) (grouped : Grouped) : Option (List NoteDto) :=
  let cands := (allGroups grouped).filter (fun g => decide (2 ≤ g.length))
  let m := specMax current_dt cands 0
  if 0 < m then cands.find? (fun g => decide (scoreOf current_dt g = m)) else none

/-- A Routine note created at 10:00 with a 12:00 trigger. -/
def noteRoutine : NoteDto :=
  ⟨"water plants", "2025-06-16 10:00", none, .ROUTINE, [⟨.TIME, "2025-06-16 12:00"⟩]⟩

/-- A Call note created at 16:00 with an 18:00 trigger. -/
def noteCall : NoteDto :=
  ⟨"call dentist", "2025-06-16 16:00", none, .CALL, [⟨.TIME, "2025-06-16 18:00"⟩]⟩

/-- A cluster whose average creation time is 10:00. -/
def clusterMorning : List NoteDto :=
  [noteRoutine, noteRoutine]

/-- A cluster whose average creation time is 16:00. -/
def clusterEvening : List NoteDto :=
  [noteCall, noteCall]

/-- Grouped clusters for exercising the scorer: two scorable clusters and a
size-1 cluster the scorer must skip. -/
def groupedScoring : Grouped :=
  [(.ROUTINE, [clusterMorning]), (.CALL, [clusterEvening, [noteCall]])]

/-! ### Theorems -/

/-- C6: for every non-empty list of times-of-day, `_average_time` converts
each element to seconds since midnight, takes the integer-truncated mean and
converts back to hour and minute; in particular [09:00, 09:00, 09:00] maps to
09:00 and [08:00, 10:00] maps to 09:00. -/
theorem average_time_eq_spec (ts : List Time) (h : ts ≠ []) :
    average_time ts = .ok (spec_average_time ts) ∧
    average_time [⟨9, 0⟩, ⟨9, 0⟩, ⟨9, 0⟩] = .ok ⟨9, 0⟩ ∧
    average_time [⟨8, 0⟩, ⟨10, 0⟩] = .ok ⟨9, 0⟩ := by
  refine ⟨?_, by decide, by decide⟩
  have hlen : ¬ ts.length = 0 := by simpa [List.length_eq_zero] using h
  simp [average_time, spec_average_time, hlen]

/-- Witness for C6 at the concrete input [08:00, 10:00]. -/
theorem average_time_eq_spec_witness :
    average_time [⟨8, 0⟩, ⟨10, 0⟩] = .ok ⟨9, 0⟩ :=
  (average_time_eq_spec [⟨8, 0⟩, ⟨10, 0⟩] (by decide)).2.2

/-- C10: there exists a non-empty note history with a category of two or more
notes — here two Shopping notes carrying the identical text — on which the
engine raises an exception instead of returning a hint or the
no-recommendation outcome, because fitting the TF-IDF model leaves an empty
vocabulary after the 10 percent / 90 percent document-frequency pruning. -/
theorem engine_raises_on_all_identical_texts (sim : SimOracle) (rewriter : Rewriter) :
    (generate_time_hint sim rewriter none reqAllIdentical).1 =
      .error (.valueError "After pruning, no terms remain. Try a lower min_df or a higher max_df.")
    ∧ reqAllIdentical.context.length = 2 :=
  ⟨rfl, rfl⟩

/-- C2(code_bug): on a note collection with no time-kind triggers anywhere
but a category holding two textually similar notes, the engine reaches
`_average_time([])` for the cluster's trigger times and raises
ZeroDivisionError (surfaced as a 500), instead of returning no
recommendation. -/
theorem no_triggers_raises_zero_division :
    (get_from_text simIdentical rwOk none reqNoTriggers).1 =
      .error (500, "integer division or modulo by zero") := by
  with_unfolding_all decide

/-- C4(code_bug): at 23:00 on the last day of a month, with a winning cluster
whose average trigger time (09:00) already passed, the roll-forward
`replace(day=day+1)` raises ValueError("day is out of range for month")
instead of producing the next calendar day. -/
theorem month_end_roll_raises :
    (get_from_text simIdentical rwOk none reqMonthEnd).1 =
      .error (500, "day is out of range for month") := by
  with_unfolding_all decide

/-- C1(counterexample): with a winning cluster present and the rewriting
collaborator answering HTTP 503, the whole request fails with that status —
no HintResult with fallback text is returned. -/
theorem collaborator_failure_fails_request :
    (get_from_text simIdentical rwUnavailable none reqTwoMilk).1 =
      .error (503, "YandexGPT API error: unavailable") := by
  with_unfolding_all decide

/-- C1(corrected): whenever the non-collaborator part of the synthesizer
succeeds (witnessed by some collaborator behavior producing a response), an
HTTP-status failure of the collaborator makes `_build_hint_from_group` raise
`HTTPException(status, "YandexGPT API error: ...")` — the failure propagates
to the caller instead of being replaced by template text. -/
theorem build_hint_surfaces_collaborator_failure (group : List NoteDto)
    (current_time : String) (status : Nat) (body : String) (f : Rewriter)
    (resp : TextBasedHintResponse)
    (h : build_hint_from_group f group current_time = .ok resp) :
    build_hint_from_group (fun _ _ => LlmOutcome.httpStatusError status body) group
      current_time = .error (.httpError status ("YandexGPT API error: " ++ body)) := by
  unfold build_hint_from_group at h ⊢
  cases hn : build_hint_note group current_time with
  | error e =>
    rw [hn] at h
    simp at h
  | ok hint_note => rfl

/-- Witness for C1 at the winning cluster of `reqTwoMilk`. -/
theorem build_hint_surfaces_collaborator_failure_witness :
    build_hint_from_group rwUnavailable [noteMilk, noteMilk] "2025-06-16 17:10" =
      .error (.httpError 503 ("YandexGPT API error: " ++ "unavailable")) :=
  build_hint_surfaces_collaborator_failure [noteMilk, noteMilk] "2025-06-16 17:10"
    503 "unavailable" rwOk
    ⟨⟨"buy milk", "2025-06-16 17:10", none, .SHOPPING, [⟨.TIME, "2025-06-16 18:00"⟩]⟩, "ok"⟩
    (by decide)

/-- A time trigger with an unparseable value somewhere in a trigger list
makes `parse_time_triggers` raise. -/
theorem parse_time_triggers_err (ts : List TriggerDto) (t : TriggerDto)
    (ht : t ∈ ts) (htype : t.triggerType = TriggerType.TIME)
    (hbad : strptime t.triggerValue = none) :
    ∃ e, parse_time_triggers ts = .error e := by
  induction ts with
  | nil => cases ht
  | cons x xs ih =>
    rcases List.mem_cons.mp ht with rfl | hmem
    · unfold parse_time_triggers
      rw [if_pos htype]
      unfold strptimeE
      rw [hbad]
      exact ⟨_, rfl⟩
    · unfold parse_time_triggers
      by_cases hx : x.triggerType = TriggerType.TIME
      · rw [if_pos hx]
        cases hsp : strptimeE x.triggerValue with
        | error e => exact ⟨e, rfl⟩
        | ok d =>
          obtain ⟨e, he⟩ := ih hmem
          rw [he]
          exact ⟨e, rfl⟩
      · rw [if_neg hx]
        exact ih hmem

/-- A note whose triggers fail to parse makes `collect_times` raise. -/
theorem collect_times_err (group : List NoteDto) (n : NoteDto) (hn : n ∈ group)
    (he : ∃ e, parse_time_triggers n.triggers = .error e) :
    ∃ e, collect_times group = .error e := by
  induction group with
  | nil => cases hn
  | cons x xs ih =>
    rcases List.mem_cons.mp hn with rfl | hmem
    · obtain ⟨e, hp⟩ := he
      unfold collect_times
      rw [hp]
      exact ⟨e, rfl⟩
    · unfold collect_times
      cases hp : parse_time_triggers x.triggers with
      | error e => exact ⟨e, rfl⟩
      | ok tts =>
        cases hc : strptimeE x.createdAt with
        | error e => exact ⟨e, rfl⟩
        | ok c =>
          obtain ⟨e, hcol⟩ := ih hmem
          rw [hcol]
          exact ⟨e, rfl⟩

/-- C3(corrected): a time-kind trigger whose value string is not a parseable
timestamp is not skipped: `_analyze_group_time_pattern` raises on it, so a
request whose analyzed cluster contains such a trigger fails instead of
completing normally. -/
theorem analyze_raises_on_unparseable_trigger (group : List NoteDto)
    (note : NoteDto) (trig : TriggerDto) (h1 : note ∈ group)
    (h2 : trig ∈ note.triggers) (h3 : trig.triggerType = TriggerType.TIME)
    (h4 : strptime trig.triggerValue = none) :
    ∃ e, analyze_group_time_pattern group = .error e := by
  obtain ⟨e, hc⟩ :=
    collect_times_err group note h1 (parse_time_triggers_err note.triggers trig h2 h3 h4)
  refine ⟨e, ?_⟩
  unfold analyze_group_time_pattern
  rw [hc]

/-- Witness for C3 at a group holding the unparseable trigger "soon". -/
theorem analyze_raises_on_unparseable_trigger_witness :
    (analyze_group_time_pattern [noteMilkBadTrigger]).isOk = false := by
  obtain ⟨e, he⟩ := analyze_raises_on_unparseable_trigger [noteMilkBadTrigger]
    noteMilkBadTrigger ⟨.TIME, "soon"⟩ (by decide) (by decide) (by decide) (by decide)
  rw [he]
  rfl

/-- C3(counterexample): a request whose winning cluster carries the trigger
value "soon" fails as a whole with a 500 instead of skipping the trigger and
completing. -/
theorem bad_trigger_fails_request :
    (get_from_text simIdentical rwOk none reqBadTrigger).1 =
      .error (500, "time data soon does not match format %Y-%m-%d %H:%M") := by
  with_unfolding_all decide

/-- C7(counterexample): a single-note history — every category holds at most
one note — makes the unfitted service raise the empty-vocabulary error of the
TF-IDF fit, surfaced as a 500, not the 404 no-recommendation outcome. -/
theorem single_note_history_returns_500 :
    (get_from_text simIdentical rwOk none reqSingleNote).1 =
      .error (500, "After pruning, no terms remain. Try a lower min_df or a higher max_df.") := by
  decide

/-- C8(counterexample): two invocations of the engine on the same request,
differing only in the rewriting collaborator's answer, return different hint
texts — the response is not a function of the request alone, and no
template-based text is produced. -/
theorem response_depends_on_collaborator :
    (generate_time_hint simIdentical (fun _ _ => .success "Hint A") none reqTwoMilk).1 ≠
      (generate_time_hint simIdentical (fun _ _ => .success "Hint B") none reqTwoMilk).1 := by
  with_unfolding_all decide

/-- C8(corrected): a second invocation of the service on the same request —
reusing the vectorizer state the first invocation fitted — returns exactly
the first invocation's outcome and state, and likewise for the winning
cluster; the engine is deterministic once the collaborator behaviors are
fixed. -/
theorem engine_invocation_idempotent (sim : SimOracle) (rewriter : Rewriter)
    (request : TextBasedHintRequest) :
    generate_time_hint sim rewriter (generate_time_hint sim rewriter none request).2 request =
      generate_time_hint sim rewriter none request ∧
    winning_cluster sim (winning_cluster sim none request).2 request =
      winning_cluster sim none request := by
  by_cases hemp : request.context.isEmpty = true
  · constructor <;> simp [generate_time_hint, winning_cluster, hemp]
  · cases hf : fit_vectorizer (request.context.map fun n => n.text) with
    | error e =>
      constructor <;>
        simp [generate_time_hint, winning_cluster, group_similar_notes, hemp, hf]
    | ok v =>
      refine ⟨?_, ?_⟩
      · cases hb : find_best_recommendation
            (groups_for sim (request.context.map fun n => n.text) request.context)
            request.current_time with
        | error e => simp [generate_time_hint, group_similar_notes, hemp, hf, hb]
        | ok ob =>
          cases ob with
          | none => simp [generate_time_hint, group_similar_notes, hemp, hf, hb]
          | some bg =>
            cases hbd : build_hint_from_group rewriter bg request.current_time with
            | error e =>
              simp [generate_time_hint, group_similar_notes, hemp, hf, hb, hbd]
            | ok resp =>
              simp [generate_time_hint, group_similar_notes, hemp, hf, hb, hbd]
      · simp [winning_cluster, group_similar_notes, hemp, hf]

/-- Notes selected through an index group of the greedy clustering all come
from the category's note list. -/
theorem mem_group_category_notes (simf : Nat → Nat → ℚ) (cn : List NoteDto)
    (g : List NoteDto) (hg : g ∈ group_category_notes simf cn) (note : NoteDto)
    (hn : note ∈ g) : note ∈ cn := by
  unfold group_category_notes at hg
  obtain ⟨idxs, _hi, rfl⟩ := List.mem_map.mp hg
  obtain ⟨j, _hj, hjs⟩ := List.mem_filterMap.mp hn
  exact List.get?_mem hjs

/-- C9: every cluster the similarity grouper produces contains only notes of
the category it is filed under — notes of different categories never share a
cluster. -/
theorem grouping_single_category (sim : SimOracle) (state : Option (List String))
    (notes : List NoteDto) (grouped : Grouped) (category : CategoryType)
    (groups : List (List NoteDto)) (g : List NoteDto) (note : NoteDto)
    (hok : (group_similar_notes sim state notes).1 = .ok grouped)
    (h1 : (category, groups) ∈ grouped) (h2 : g ∈ groups) (h3 : note ∈ g) :
    note.categoryType = category := by
  have hgf : ∃ corpus, grouped = groups_for sim corpus notes := by
    cases state with
    | some corpus =>
      simp [group_similar_notes] at hok
      exact ⟨corpus, hok.symm⟩
    | none =>
      simp only [group_similar_notes] at hok
      cases hf : fit_vectorizer (notes.map fun n => n.text) with
      | error e => rw [hf] at hok; simp at hok
      | ok v =>
        rw [hf] at hok
        simp at hok
        exact ⟨_, hok.symm⟩
  obtain ⟨corpus, rfl⟩ := hgf
  unfold groups_for at h1
  obtain ⟨c, _hc, hsome⟩ := List.mem_filterMap.mp h1
  by_cases hlen : (notes.filter fun n => decide (n.categoryType = c)).length < 2
  · rw [if_pos hlen] at hsome
    cases hsome
  · rw [if_neg hlen] at hsome
    injection hsome with hpair
    have hcat : c = category := congrArg Prod.fst hpair
    have hgroups : groups = group_category_notes
        (sim corpus ((notes.filter fun n => decide (n.categoryType = c)).map fun n => n.text))
        (notes.filter fun n => decide (n.categoryType = c)) := (congrArg Prod.snd hpair).symm
    subst hcat
    rw [hgroups] at h2
    have hmem := mem_group_category_notes _ _ g h2 note h3
    have := (List.mem_filter.mp hmem).2
    exact of_decide_eq_true this

/-- Witness for C9 at the concrete grouping of `reqTwoMilk`. -/
theorem grouping_single_category_witness :
    noteMilk.categoryType = CategoryType.SHOPPING :=
  grouping_single_category simIdentical none reqTwoMilk.context
    [(CategoryType.SHOPPING, [[noteMilk, noteMilk]])] CategoryType.SHOPPING
    [[noteMilk, noteMilk]] [noteMilk, noteMilk] noteMilk
    (by with_unfolding_all decide) (by decide) (by decide) (by decide)

/-- When every category holds at most one note, the grouper produces no
cluster at all. -/
theorem groups_for_eq_nil (sim : SimOracle) (corpus : List String) (notes : List NoteDto)
    (h : ∀ c ∈ CategoryType.all,
      (notes.filter fun n => decide (n.categoryType = c)).length ≤ 1) :
    groups_for sim corpus notes = [] := by
  unfold groups_for
  refine List.filterMap_eq_nil_iff.mpr ?_
  intro c hc
  have hlen := h c hc
  simp only []
  rw [if_pos (by omega)]

/-- Selecting from an empty cluster dictionary yields no recommendation. -/
theorem find_best_recommendation_nil (current_time : String) (d : DateTime)
    (h : strptime current_time = some d) :
    find_best_recommendation [] current_time = .ok none := by
  unfold find_best_recommendation strptimeE
  rw [h]
  rfl

/-- C7(corrected): an empty history, and any history in which every category
holds at most one note, yields the no-recommendation outcome, which the
endpoint maps to a 404 — provided the vectorizer is already fitted or its fit
over the request's texts succeeds (a fresh fit can instead raise the
empty-vocabulary error, surfaced as a 500). -/
theorem no_recommendation_maps_to_404 (sim : SimOracle) (rewriter : Rewriter)
    (state : Option (List String)) (request : TextBasedHintRequest)
    (hcat : ∀ c ∈ CategoryType.all,
      (request.context.filter fun n => decide (n.categoryType = c)).length ≤ 1)
    (hct : (strptime request.current_time).isSome)
    (hfit : state = none → request.context ≠ [] →
      (fit_vectorizer (request.context.map fun n => n.text)).isOk = true) :
    (get_from_text sim rewriter state request).1 = .error (404, "No hints generated") := by
  obtain ⟨d, hd⟩ := Option.isSome_iff_exists.mp hct
  have key : ∃ s, generate_time_hint sim rewriter state request = (.ok none, s) := by
    by_cases hemp : request.context.isEmpty = true
    · exact ⟨state, by unfold generate_time_hint; rw [if_pos hemp]⟩
    · cases state with
      | some corpus =>
        refine ⟨some corpus, ?_⟩
        simp [generate_time_hint, hemp, group_similar_notes,
          groups_for_eq_nil sim corpus request.context hcat,
          find_best_recommendation_nil request.current_time d hd]
      | none =>
        have hne : request.context ≠ [] := by
          intro hnil
          rw [hnil] at hemp
          exact hemp rfl
        have hfit2 := hfit rfl hne
        cases hf : fit_vectorizer (request.context.map fun n => n.text) with
        | error e => rw [hf] at hfit2; simp [Except.isOk, Except.toBool] at hfit2
        | ok v =>
          refine ⟨some (request.context.map fun n => n.text), ?_⟩
          simp [generate_time_hint, hemp, group_similar_notes, hf,
            groups_for_eq_nil sim (request.context.map fun n => n.text) request.context hcat,
            find_best_recommendation_nil request.current_time d hd]
  obtain ⟨s, hgen⟩ := key
  unfold get_from_text
  rw [hgen]

/-- Witness for C7 at three notes in three distinct categories. -/
theorem no_recommendation_maps_to_404_witness :
    (get_from_text simIdentical rwOk none reqDistinctCategories).1 =
      .error (404, "No hints generated") :=
  no_recommendation_maps_to_404 simIdentical rwOk none reqDistinctCategories
    (by decide) (by decide) (by decide)

/-- The starting value is a lower bound of the running maximum of scores. -/
theorem specMax_le (current_dt : DateTime) (l : List (List NoteDto)) (s : ℚ) :
    s ≤ specMax current_dt l s := by
  induction l with
  | nil => exact le_refl s
  | cons g rest ih => exact le_trans ih (le_max_right _ _)

/-- A maximum in the starting value commutes out of the running maximum. -/
theorem specMax_max (current_dt : DateTime) (l : List (List NoteDto)) (a b : ℚ) :
    specMax current_dt l (max a b) = max a (specMax current_dt l b) := by
  induction l with
  | nil => rfl
  | cons g rest ih =>
    show max (scoreOf current_dt g) (specMax current_dt rest (max a b)) =
      max a (max (scoreOf current_dt g) (specMax current_dt rest b))
    rw [ih, max_left_comm]

/-- The selection loop of `_find_best_recommendation`, started at any
accumulator, returns the first size-≥2 group attaining the maximum score when
that maximum strictly beats the accumulator score, and the accumulated group
otherwise. -/
theorem find_best_aux_spec (current_dt : DateTime) (l : List (List NoteDto)) :
    ∀ (b : Option (List NoteDto)) (s : ℚ),
    (∀ g ∈ l, 2 ≤ g.length → (analyze_group_time_pattern g).isOk = true) →
    find_best_aux current_dt l (b, s) = .ok
      (if s < specMax current_dt (l.filter fun g => decide (2 ≤ g.length)) s then
        (l.filter fun g => decide (2 ≤ g.length)).find?
          (fun g => decide (scoreOf current_dt g =
            specMax current_dt (l.filter fun g => decide (2 ≤ g.length)) s))
      else b,
      specMax current_dt (l.filter fun g => decide (2 ≤ g.length)) s) := by
  induction l with
  | nil =>
    intro b s _
    simp [find_best_aux, specMax, lt_irrefl]
  | cons g rest ih =>
    intro b s hok
    have hokr : ∀ g' ∈ rest, 2 ≤ g'.length → (analyze_group_time_pattern g').isOk = true :=
      fun g' hm => hok g' (List.mem_cons_of_mem _ hm)
    by_cases hl : g.length < 2
    · have hfilter : (decide (2 ≤ g.length)) = false := by
        simp only [decide_eq_false_iff_not]
        omega
      have hskip : find_best_aux current_dt (g :: rest) (b, s) =
          find_best_aux current_dt rest (b, s) := by
        conv_lhs => unfold find_best_aux
        rw [if_pos hl]
      rw [hskip, ih b s hokr]
      simp [List.filter_cons, hfilter]
    · have h2 : 2 ≤ g.length := by omega
      have hfilter : (decide (2 ≤ g.length)) = true := by simp [h2]
      have hOk := hok g (List.mem_cons_self _ _) h2
      cases hA : analyze_group_time_pattern g with
      | error e =>
        rw [hA] at hOk
        simp [Except.isOk, Except.toBool] at hOk
      | ok tp =>
        have hscore : scoreOf current_dt g = calculate_group_score tp current_dt := by
          unfold scoreOf
          rw [hA]
        have hstep : find_best_aux current_dt (g :: rest) (b, s) =
            if s < calculate_group_score tp current_dt then
              find_best_aux current_dt rest (some g, calculate_group_score tp current_dt)
            else find_best_aux current_dt rest (b, s) := by
          conv_lhs => unfold find_best_aux
          rw [if_neg hl, hA]
        have hcands : ((g :: rest).filter fun g => decide (2 ≤ g.length)) =
            g :: (rest.filter fun g => decide (2 ≤ g.length)) := by
          simp [List.filter_cons, hfilter]
        rw [hstep, hcands]
        have hconsMax : specMax current_dt
            (g :: (rest.filter fun g => decide (2 ≤ g.length))) s =
            max (calculate_group_score tp current_dt)
              (specMax current_dt (rest.filter fun g => decide (2 ≤ g.length)) s) := by
          simp only [specMax, List.foldr_cons, hscore]
        by_cases hcs : s < calculate_group_score tp current_dt
        · rw [if_pos hcs, ih (some g) (calculate_group_score tp current_dt) hokr]
          have hMc : specMax current_dt (rest.filter fun g => decide (2 ≤ g.length))
              (calculate_group_score tp current_dt) =
              max (calculate_group_score tp current_dt)
                (specMax current_dt (rest.filter fun g => decide (2 ≤ g.length)) s) :=
            calc specMax current_dt (rest.filter fun g => decide (2 ≤ g.length))
                  (calculate_group_score tp current_dt)
                = specMax current_dt (rest.filter fun g => decide (2 ≤ g.length))
                  (max (calculate_group_score tp current_dt) s) := by
                  rw [max_eq_left (le_of_lt hcs)]
              _ = max (calculate_group_score tp current_dt)
                  (specMax current_dt (rest.filter fun g => decide (2 ≤ g.length)) s) :=
                  specMax_max _ _ _ _
          rw [hMc, hconsMax]
          have hsm : s < max (calculate_group_score tp current_dt)
              (specMax current_dt (rest.filter fun g => decide (2 ≤ g.length)) s) :=
            lt_of_lt_of_le hcs (le_max_left _ _)
          rw [if_pos hsm]
          by_cases hcm : calculate_group_score tp current_dt <
              max (calculate_group_score tp current_dt)
                (specMax current_dt (rest.filter fun g => decide (2 ≤ g.length)) s)
          · rw [if_pos hcm]
            rw [List.find?_cons_of_neg _ (by
              simp only [hscore, decide_eq_true_eq]
              exact ne_of_lt hcm)]
          · rw [if_neg hcm]
            have hceq : max (calculate_group_score tp current_dt)
                (specMax current_dt (rest.filter fun g => decide (2 ≤ g.length)) s) =
                calculate_group_score tp current_dt :=
              le_antisymm (not_lt.mp hcm) (le_max_left _ _)
            rw [List.find?_cons_of_pos _ (by simp [hscore, hceq])]
        · rw [if_neg hcs, ih b s hokr]
          have hM : specMax current_dt
              (g :: (rest.filter fun g => decide (2 ≤ g.length))) s =
              specMax current_dt (rest.filter fun g => decide (2 ≤ g.length)) s := by
            rw [hconsMax]
            exact max_eq_right (le_trans (not_lt.mp hcs) (specMax_le _ _ _))
          rw [hM]
          by_cases hsM : s < specMax current_dt (rest.filter fun g => decide (2 ≤ g.length)) s
          · rw [if_pos hsM, if_pos hsM]
            rw [List.find?_cons_of_neg _ (by
              simp only [hscore, decide_eq_true_eq]
              exact ne_of_lt (lt_of_le_of_lt (not_lt.mp hcs) hsM))]
          · rw [if_neg hsM, if_neg hsM]

/-- C5: with a parseable current time and analyzable clusters, the scorer
assigns each cluster `max(0, 1 − |hours between current time-of-day and the
cluster's average creation time-of-day| / 12) × min(1, count / 5)` and
returns the cluster with the strictly highest score, ties resolved in favor
of the first cluster encountered; it returns none when no size-≥2 cluster
scores above zero. -/
theorem find_best_selects_highest (grouped : Grouped) (current_time : String)
    (current_dt : DateTime) (hct : strptime current_time = some current_dt)
    (hok : ∀ g ∈ allGroups grouped, 2 ≤ g.length →
      (analyze_group_time_pattern g).isOk = true) :
    (∀ tp, calculate_group_score tp current_dt =
        max 0 (1 - |((current_dt.timeOfDaySeconds : ℚ) - (tp.avg_creation.toSeconds : ℚ))
          / 3600| / 12) * min 1 ((tp.count : ℚ) / 5)) ∧
    find_best_recommendation grouped current_time = .ok (bestSpec current_dt grouped) := by
  refine ⟨fun tp => rfl, ?_⟩
  simp only [find_best_recommendation, strptimeE, hct]
  rw [find_best_aux_spec current_dt (allGroups grouped) none 0 hok]
  rfl

/-- Witness for C5 at two scorable clusters (10:00 and 16:00 average creation
times, current time 10:30) and a size-1 cluster: the 10:00 cluster wins. -/
theorem find_best_selects_highest_witness :
    find_best_recommendation groupedScoring "2025-06-16 10:30" = .ok (some clusterMorning) ∧
    bestSpec ⟨2025, 6, 16, 10, 30⟩ groupedScoring = some clusterMorning := by
  constructor
  · exact ((find_best_selects_highest groupedScoring "2025-06-16 10:30" ⟨2025, 6, 16, 10, 30⟩
      (by decide) (by decide)).2).trans (by with_unfolding_all decide)
  · with_unfolding_all decide

end HintsService
